import Mathlib

/-!
Shallow embedding of `concurrent_load_test_improved.py`, the load-generation
and measurement engine of the `sistema_bancario` repository.

External effects (the psycopg2 connection, cursor statements, the remote
stored procedures, the wall clock) are modelled as explicit behaviour
parameters: each fallible step is an `Except String _` value describing
whether that call returns normally or raises an exception with a message.
Control flow (try/except/finally nesting, the retry loop of `make_conn`)
is translated statement for statement from the source.
-/

namespace ConcurrentLoadTest

/-- Python's substring test `pat in s`, on character lists. -/
def charsContain (pat : List Char) : List Char → Bool
  | [] => pat.isEmpty
  | c :: rest => pat.isPrefixOf (c :: rest) || charsContain pat rest

/-- Python's substring test `pat in s` on strings. -/
def strContainsSub (s pat : String) : Bool := charsContain pat.toList s.toList

/-- `str(e).replace(chr(10), ' | ')` applied to the characters of the message
(lines 84 and 90 of the source sanitize exception text this way). -/
def sanitizeChars : List Char → List Char
  | [] => []
  | c :: rest =>
    if c = '\n' then ' ' :: '|' :: ' ' :: sanitizeChars rest
    else c :: sanitizeChars rest

/-- `str(e).replace(chr(10), ' | ')` on strings. -/
def sanitize (s : String) : String := String.mk (sanitizeChars s.toList)

/-- Round-half-to-even on rationals, the tie rule of Python's `round`. -/
def rndHalfEven (q : ℚ) : ℤ :=
  if q - Int.floor q < 1 / 2 then Int.floor q
  else if (1 : ℚ) / 2 < q - Int.floor q then Int.floor q + 1
  else if Int.floor q % 2 = 0 then Int.floor q else Int.floor q + 1

/-- Python's `round(q, d)` modelled on rationals. -/
def roundDec (d : Nat) (q : ℚ) : ℚ := (rndHalfEven (q * (10 : ℚ) ^ d) : ℚ) / (10 : ℚ) ^ d

/-- `statistics.mean` on rationals. -/
def meanQ (l : List ℚ) : ℚ := l.sum / l.length

/-- Insertion into a sorted list, used to model the sorting inside
`statistics.median`. -/
def insertSorted (x : ℚ) : List ℚ → List ℚ
  | [] => [x]
  | y :: rest => if x ≤ y then x :: y :: rest else y :: insertSorted x rest

/-- Insertion sort on rationals. -/
def sortQ : List ℚ → List ℚ
  | [] => []
  | x :: rest => insertSorted x (sortQ rest)

/-- `statistics.median`: middle element of the sorted list for odd length,
mean of the two middle elements for even length. -/
def medianQ (l : List ℚ) : ℚ :=
  let s := sortQ l
  let n := s.length
  if n % 2 = 1 then s.getD (n / 2) 0
  else (s.getD (n / 2 - 1) 0 + s.getD (n / 2) 0) / 2

/-- The `--mode` argument: `2pl`, `ts`, `opt` or `simple` (argparse choices). -/
inductive Mode | twoPl | ts | opt | simple
deriving DecidableEq

/-- The `--isolation` argument (argparse choices). -/
inductive Isolation | readCommitted | repeatableRead | serializable
deriving DecidableEq

/-- Outcome of a single `psycopg2.connect` call: success, an
`OperationalError`, or an exception of any other class. -/
inductive ConnAttempt
  | ok
  | opError (msg : String)
  | otherError (msg : String)
deriving DecidableEq

/-- Outcome of the whole `make_conn` call: a connection, or an uncaught
exception (`OperationalError` re-raised on exhaustion, or any other class). -/
inductive ConnOutcome
  | conn
  | raisedOp (msg : String)
  | raisedOther (msg : String)
deriving DecidableEq

/-- Observable trace of `make_conn`: its result, the sequence of
`time.sleep` durations, and how many `psycopg2.connect` calls were made. -/
structure ConnTrace where
  result : ConnOutcome
  sleeps : List ℚ
  calls : Nat
deriving DecidableEq

/-- The retry loop of `make_conn` (source lines 38-48).  `attempts i` is the
behaviour of the `i`-th `psycopg2.connect` call.  The Python `attempt`
counter equals `maxRetries - fuel` at each iteration; the loop re-raises the
current `OperationalError` once `attempt > max_retries`, otherwise sleeps
`backoff * attempt` and retries.  Any non-`OperationalError` exception is
not caught by the `except OperationalError` clause and escapes at once. -/
def makeConnAux (attempts : Nat → ConnAttempt) (maxRetries : Nat) (backoff : ℚ)
    (i : Nat) : Nat → ConnTrace
  | 0 =>
    match attempts i with
    | .ok => ⟨.conn, [], 1⟩
    | .opError m => ⟨.raisedOp m, [], 1⟩
    | .otherError m => ⟨.raisedOther m, [], 1⟩
  | fuel + 1 =>
    match attempts i with
    | .ok => ⟨.conn, [], 1⟩
    | .opError _ =>
      let rest := makeConnAux attempts maxRetries backoff (i + 1) fuel
      ⟨rest.result, backoff * ((maxRetries - fuel : Nat) : ℚ) :: rest.sleeps, rest.calls + 1⟩
    | .otherError m => ⟨.raisedOther m, [], 1⟩

/-- `make_conn(host, ..., max_retries, backoff)`: run the retry loop starting
at attempt counter 0 with `maxRetries` retries available. -/
def make_conn (attempts : Nat → ConnAttempt) (maxRetries : Nat) (backoff : ℚ) : ConnTrace :=
  makeConnAux attempts maxRetries backoff 0 maxRetries

/-- Behaviour of the database session underlying one `worker_task`
invocation: for each statement the session executes, whether it returns
normally or raises, and for the three stored-procedure modes the row
returned by `fetchone()` (`none` models an empty result). -/
structure DbBehavior where
  cursor : Except String Unit
  setTimeout : Except String Unit
  beginTx : Except String Unit
  proc2pl : Except String (Option String)
  procTs : Except String (Option String)
  procOpt : Except String (Option String)
  debit : Except String Unit
  credit : Except String Unit
  insertLog : Except String Unit
  commit : Except String Unit
  rollback : Except String Unit
  closeCur : Except String Unit
  closeConn : Except String Unit

/-- Step 5 of the executor (source lines 63-80): dispatch on `mode`.  The
three stored-procedure modes fetch one row and use its first column as the
status, defaulting to `UNKNOWN` when no row comes back; `simple` runs the
unguarded debit / credit / log-insert sequence and reports `COMPLETADA`. -/
def innerOp (env : DbBehavior) : Mode → Except String String
  | .twoPl =>
    match env.proc2pl with
    | .error m => .error m
    | .ok (some s) => .ok s
    | .ok none => .ok ("UNKNOWN")
  | .ts =>
    match env.procTs with
    | .error m => .error m
    | .ok (some s) => .ok s
    | .ok none => .ok ("UNKNOWN")
  | .opt =>
    match env.procOpt with
    | .error m => .error m
    | .ok (some s) => .ok s
    | .ok none => .ok ("UNKNOWN")
  | .simple =>
    match env.debit with
    | .error m => .error m
    | .ok _ =>
      match env.credit with
      | .error m => .error m
      | .ok _ =>
        match env.insertLog with
        | .error m => .error m
        | .ok _ => .ok ("COMPLETADA")

/-- Body of the inner `try` (source lines 62-81): the mode dispatch followed
by `conn.commit()`; the first exception propagates to the inner handler. -/
def innerTryBody (env : DbBehavior) (mode : Mode) : Except String String :=
  match innerOp env mode with
  | .error m => .error m
  | .ok s =>
    match env.commit with
    | .error m => .error m
    | .ok _ => .ok s

/-- Resource-usage trace of one `worker_task` invocation: how many times
`cur.close()`, `conn.close()` and `conn.rollback()` were called. -/
structure Trace where
  curCloses : Nat
  connCloses : Nat
  rollbacks : Nat
deriving DecidableEq

/-- The inner `try`/`except` (source lines 62-85).  On an exception the
handler calls `conn.rollback()` first; only if the rollback returns does it
set `err_text` and `status = 'ABORT: ' + err_text`.  A rollback that itself
raises lets that exception continue to propagate.  The second component
counts rollback calls. -/
def afterInnerExcept (env : DbBehavior) (mode : Mode) :
    Except String (String × Option String) × Nat :=
  match innerTryBody env mode with
  | .ok s => (.ok (s, none), 0)
  | .error m =>
    match env.rollback with
    | .ok _ => (.ok ((("ABORT: ").append (sanitize m)), some (sanitize m)), 1)
    | .error m2 => (.error m2, 1)

/-- The `finally` clause (source lines 86-88): `cur.close()` then
`conn.close()`.  If `cur.close()` raises, `conn.close()` is never reached
and the new exception replaces whatever the block was about to deliver;
likewise for a raising `conn.close()`. -/
def afterFinally (env : DbBehavior) (mode : Mode) :
    Except String (String × Option String) × Trace :=
  let h := afterInnerExcept env mode
  match env.closeCur with
  | .error m3 => (.error m3, ⟨1, 0, h.2⟩)
  | .ok _ =>
    match env.closeConn with
    | .error m4 => (.error m4, ⟨1, 1, h.2⟩)
    | .ok _ => (h.1, ⟨1, 1, h.2⟩)

/-- The per-transaction record returned by `worker_task`
(source lines 94-105); wall-clock timestamps are elided, `latency_s` is the
measured latency handed in by the clock model. -/
structure TxResult where
  mode : Mode
  isolation : Isolation
  from_id : Int
  to_id : Int
  amount : ℚ
  status : String
  latency_s : ℚ
  error : Option String
deriving DecidableEq

/-- The outer `except Exception` handler (source lines 89-91): any exception
reaching it becomes `status = 'CONN_ERR: ' + err_text` with the sanitized
message recorded in `error`. -/
def outerExceptOut (mode : Mode) (iso : Isolation) (from_id to_id : Int)
    (amt lat : ℚ) (m : String) (tr : Trace) : TxResult × Trace :=
  ({ mode := mode, isolation := iso, from_id := from_id, to_id := to_id,
     amount := amt, status := (("CONN_ERR: ").append (sanitize m)),
     latency_s := lat, error := some (sanitize m) }, tr)

/-- Normal completion of the outer `try`: package `status` and `err_text`
into the result record. -/
def normalOut (mode : Mode) (iso : Isolation) (from_id to_id : Int)
    (amt lat : ℚ) (st : String) (err : Option String) (tr : Trace) : TxResult × Trace :=
  ({ mode := mode, isolation := iso, from_id := from_id, to_id := to_id,
     amount := amt, status := st, latency_s := lat, error := err }, tr)

/-- `worker_task` (source lines 51-105).  The session is obtained through
`make_conn`; then `conn.cursor()`, the `SET LOCAL statement_timeout` and the
`BEGIN TRANSACTION ISOLATION LEVEL ...` statements run directly inside the
outer `try` (lines 57-61), so an exception in any of them goes straight to
the outer handler; only the mode dispatch and the commit are guarded by the
inner `try`/`except`/`finally`.  The second component traces closes and
rollbacks. -/
def worker_task (attempts : Nat → ConnAttempt) (maxRetries : Nat) (backoff : ℚ)
    (env : DbBehavior) (mode : Mode) (iso : Isolation)
    (from_id to_id : Int) (amt lat : ℚ) : TxResult × Trace :=
  match (make_conn attempts maxRetries backoff).result with
  | .raisedOp m => outerExceptOut mode iso from_id to_id amt lat m ⟨0, 0, 0⟩
  | .raisedOther m => outerExceptOut mode iso from_id to_id amt lat m ⟨0, 0, 0⟩
  | .conn =>
    match env.cursor with
    | .error m => outerExceptOut mode iso from_id to_id amt lat m ⟨0, 0, 0⟩
    | .ok _ =>
      match env.setTimeout with
      | .error m => outerExceptOut mode iso from_id to_id amt lat m ⟨0, 0, 0⟩
      | .ok _ =>
        match env.beginTx with
        | .error m => outerExceptOut mode iso from_id to_id amt lat m ⟨0, 0, 0⟩
        | .ok _ =>
          match afterFinally env mode with
          | (.ok (st, err), tr) => normalOut mode iso from_id to_id amt lat st err tr
          | (.error m, tr) => outerExceptOut mode iso from_id to_id amt lat m tr

/-- The row returned by the mode's stored procedure, for stating that a
successful proc-mode status is authoritative (`simple` runs no procedure). -/
def procReturn (env : DbBehavior) : Mode → Except String (Option String)
  | .twoPl => env.proc2pl
  | .ts => env.procTs
  | .opt => env.procOpt
  | .simple => .ok none

/-- One randomized transfer request as built by `run_experiment`
(source lines 113-116). -/
structure TransferRequest where
  from_id : Int
  to_id : Int
  amt : ℚ
deriving DecidableEq

/-- Request generation (source lines 114-116): `from_id` is a uniform choice
from the pool (`i` is the sampled index), `to_id` a uniform choice from the
pool with `from_id` filtered out (`j` the sampled index), and the amount is
`round(random.uniform(lo, hi), 2)` with `u` the unit sample of `uniform`. -/
def genRequest (pool : List Int) (i j : Nat) (u lo hi : ℚ) : TransferRequest :=
  let f := pool.getD (i % pool.length) 0
  let rest := pool.filter (fun a => a ≠ f)
  let t := rest.getD (j % rest.length) 0
  { from_id := f, to_id := t, amt := roundDec 2 (lo + u * (hi - lo)) }

/-- Result collection of `run_experiment` (source lines 111-119): one future
per request, gathered by `as_completed` in some completion order.  `order`
lists, as indices into the submitted batch, the order in which futures
complete; each completed future contributes its `worker_task` result. -/
def runBatchResults (reqs : List TransferRequest) (work : TransferRequest → TxResult)
    (order : List (Fin reqs.length)) : List TxResult :=
  order.map (fun i => work (reqs.get i))

/-- Classification of a status into the completed bucket
(source line 136): `'COMPLETADA' in s`. -/
def isCompletedStatus (s : String) : Bool := strContainsSub s ("COMPLETADA")

/-- Classification of a status into the aborted bucket (source line 137):
`'ABORT' in s or 'CONN_ERR' in s`. -/
def isAbortedStatus (s : String) : Bool :=
  strContainsSub s ("ABORT") || strContainsSub s ("CONN_ERR")

/-- `completed = sum(1 for s in statuses if s and 'COMPLETADA' in s)`. -/
def completedCount (rs : List TxResult) : Nat :=
  (rs.filter (fun r => isCompletedStatus r.status)).length

/-- `aborted = sum(1 for s in statuses if s and ('ABORT' in s or 'CONN_ERR' in s))`. -/
def abortedCount (rs : List TxResult) : Nat :=
  (rs.filter (fun r => isAbortedStatus r.status)).length

/-- Run parameters copied verbatim into the summary record. -/
structure RunParams where
  run_id : Nat
  mode : Mode
  isolation : Isolation
  concurrency : Nat
deriving DecidableEq

/-- The summary record built by `run_experiment` (source lines 139-152). -/
structure RunSummary where
  run_id : Nat
  mode : Mode
  isolation : Isolation
  concurrency : Nat
  total_ops : Nat
  completed : Nat
  aborted : Nat
  abort_rate_pct : ℚ
  avg_latency_s : ℚ
  p50_latency_s : ℚ
  throughput_ops_per_s : ℚ
  timestamp : ℚ
deriving DecidableEq

/-- The summarization step of `run_experiment` (source lines 133-152).
`duration` is `end_run - start_run`; `now` is the `datetime.utcnow()` value
sampled while building the record.  Every result carries a numeric
`latency_s`, so the `isinstance` filter of line 134 keeps all of them. -/
def summarize (p : RunParams) (rs : List TxResult) (duration now : ℚ) : RunSummary :=
  let latencies := rs.map (fun r => r.latency_s)
  let total := rs.length
  let aborted := abortedCount rs
  { run_id := p.run_id, mode := p.mode, isolation := p.isolation,
    concurrency := p.concurrency, total_ops := total,
    completed := completedCount rs, aborted := aborted,
    abort_rate_pct := if total ≠ 0 then roundDec 2 ((aborted : ℚ) / (total : ℚ) * 100) else 0,
    avg_latency_s := if latencies.length ≠ 0 then roundDec 4 (meanQ latencies) else 0,
    p50_latency_s := if latencies.length ≠ 0 then roundDec 4 (medianQ latencies) else 0,
    throughput_ops_per_s := if 0 < duration then roundDec 4 ((total : ℚ) / duration) else 0,
    timestamp := now }

/-- The field-name computation of the detail CSV writer (source line 126):
`list(results[0].keys())` raises `IndexError` on an empty result list. -/
def detailFieldnames (rs : List TxResult) : Except String (List String) :=
  match rs with
  | [] => .error ("IndexError: list index out of range")
  | _ :: _ =>
    .ok [("start_ts"), ("end_ts"), ("mode"), ("isolation"), ("from_id"),
         ("to_id"), ("amount"), ("status"), ("latency_s"), ("error")]

/-- Whether the detail CSV header gets written (source lines 123-132): the
whole write is wrapped in `try`/`except`, so a failing fieldname computation
is caught and logged and nothing is written; otherwise the header is emitted
exactly when the file is empty (`df.tell() == 0`). -/
def detailHeaderWritten (rs : List TxResult) (fileEmpty : Bool) : Bool :=
  match detailFieldnames rs with
  | .error _ => false
  | .ok _ => fileEmpty

/-- A connection behaviour whose every attempt succeeds. -/
def attemptsOk : Nat → ConnAttempt := fun _ => .ok

/-- A session behaviour in which every statement succeeds and the 2PL
procedure reports a completed transfer. -/
def envAllOk : DbBehavior :=
  { cursor := .ok (), setTimeout := .ok (), beginTx := .ok (),
    proc2pl := .ok (some ("COMPLETADA")), procTs := .ok (some ("COMPLETADA")),
    procOpt := .ok (some ("COMPLETADA")), debit := .ok (), credit := .ok (),
    insertLog := .ok (), commit := .ok (), rollback := .ok (),
    closeCur := .ok (), closeConn := .ok () }

/-- A session behaviour in which the connection is established but the
`SET LOCAL statement_timeout` statement raises. -/
def envLeak : DbBehavior :=
  { envAllOk with setTimeout := .error ("server closed the connection unexpectedly") }

/-- A session behaviour in which the 2PL procedure raises mid-transaction. -/
def envAbort : DbBehavior :=
  { envAllOk with proc2pl := .error ("deadlock detected") }

/-- A session behaviour in which the 2PL procedure returns a status string
containing both classification keywords. -/
def envDouble : DbBehavior :=
  { envAllOk with proc2pl := .ok (some ("ABORTADA: rollback tras fallo, no COMPLETADA")) }

/-- A session behaviour in which the 2PL procedure returns no row, so the
executor records the status `UNKNOWN`. -/
def envUnknown : DbBehavior :=
  { envAllOk with proc2pl := .ok none }

/-- A sample result record used in concrete witnesses. -/
def txr (st : String) (lat : ℚ) : TxResult :=
  { mode := .simple, isolation := .readCommitted, from_id := 1, to_id := 2,
    amount := 1, status := st, latency_s := lat, error := none }

/-- Sample run parameters used in concrete witnesses. -/
def p0 : RunParams :=
  { run_id := 1, mode := .twoPl, isolation := .readCommitted, concurrency := 5 }

/-- A concrete two-request batch used in concrete witnesses. -/
def reqsW : List TransferRequest := [⟨1, 2, 5⟩, ⟨2, 1, 7⟩]

/-- A concrete executor outcome function used in concrete witnesses. -/
def workW : TransferRequest → TxResult := fun q => txr ("COMPLETADA") q.amt

/-- A completion order that reverses submission order, used in witnesses. -/
def orderW : List (Fin reqsW.length) := [⟨1, by decide⟩, ⟨0, by decide⟩]

/-- Bounds on the retry loop: with `fuel` retries available it makes at most
`fuel + 1` connection calls and sleeps at most `fuel` times. -/
theorem makeConnAux_bounds (attempts : Nat → ConnAttempt) (maxRetries : Nat) (backoff : ℚ) :
    ∀ fuel i, (makeConnAux attempts maxRetries backoff i fuel).calls ≤ fuel + 1 ∧
      (makeConnAux attempts maxRetries backoff i fuel).sleeps.length ≤ fuel := by
  intro fuel
  induction fuel with
  | zero =>
    intro i
    cases h : attempts i <;> simp [makeConnAux, h]
  | succ n ih =>
    intro i
    cases h : attempts i with
    | ok => simp [makeConnAux, h]
    | opError m =>
      obtain ⟨h1, h2⟩ := ih (i + 1)
      simp only [makeConnAux, h, List.length_cons]
      omega
    | otherError m => simp [makeConnAux, h]

/-- When every connection attempt raises `OperationalError`, the retry loop
runs to exhaustion: with `fuel ≤ maxRetries` retries left and the attempt
counter at `maxRetries - fuel`, it sleeps `backoff * attempt` before each
retry and finally re-raises the error of the last attempt. -/
theorem makeConnAux_allFail (attempts : Nat → ConnAttempt) (msgs : Nat → String)
    (maxRetries : Nat) (backoff : ℚ)
    (hall : ∀ k, attempts k = ConnAttempt.opError (msgs k)) :
    ∀ fuel i, fuel ≤ maxRetries →
      makeConnAux attempts maxRetries backoff i fuel =
        ⟨.raisedOp (msgs (i + fuel)),
         (List.range fuel).map (fun k => backoff * ((maxRetries - fuel + k + 1 : Nat) : ℚ)),
         fuel + 1⟩ := by
  intro fuel
  induction fuel with
  | zero =>
    intro i _
    simp [makeConnAux, hall i]
  | succ n ih =>
    intro i hle
    simp only [makeConnAux, hall i]
    rw [ih (i + 1) (by omega)]
    have hidx : i + 1 + n = i + (n + 1) := by omega
    have hsl : backoff * ((maxRetries - n : Nat) : ℚ) ::
        (List.range n).map (fun k => backoff * ((maxRetries - n + k + 1 : Nat) : ℚ)) =
        (List.range (n + 1)).map
          (fun k => backoff * ((maxRetries - (n + 1) + k + 1 : Nat) : ℚ)) := by
      rw [List.range_succ_eq_map, List.map_cons, List.map_map]
      congr 1
      · have h : maxRetries - n = maxRetries - (n + 1) + 0 + 1 := by omega
        rw [h]
      · congr 1
        funext k
        simp only [Function.comp]
        have h : maxRetries - n + k + 1 = maxRetries - (n + 1) + (k + 1) + 1 := by omega
        rw [h]
    rw [hidx, hsl]

/-- C6: the Connector retries a failed connection attempt at most
`maxRetries` times — never more than `maxRetries + 1` connect calls and
`maxRetries` sleeps for any behaviour — and when every attempt fails with
`OperationalError` it sleeps `backoff * k` before retry number `k`
(k = 1, ..., maxRetries) and then re-raises the failure of the last attempt
to the caller instead of retrying further. -/
theorem make_conn_retry_policy (maxRetries : Nat) (backoff : ℚ) :
    (∀ attempts : Nat → ConnAttempt,
        (make_conn attempts maxRetries backoff).calls ≤ maxRetries + 1 ∧
        (make_conn attempts maxRetries backoff).sleeps.length ≤ maxRetries) ∧
    (∀ (attempts : Nat → ConnAttempt) (msgs : Nat → String),
        (∀ k, attempts k = ConnAttempt.opError (msgs k)) →
        make_conn attempts maxRetries backoff =
          ⟨.raisedOp (msgs maxRetries),
           (List.range maxRetries).map (fun k => backoff * ((k + 1 : Nat) : ℚ)),
           maxRetries + 1⟩) := by
  constructor
  · intro attempts
    exact makeConnAux_bounds attempts maxRetries backoff maxRetries 0
  · intro attempts msgs hall
    have h := makeConnAux_allFail attempts msgs maxRetries backoff hall maxRetries 0 le_rfl
    rw [make_conn, h]
    congr 1
    · rw [Nat.zero_add]
    · congr 1
      funext k
      have hk : maxRetries - maxRetries + k + 1 = k + 1 := by omega
      rw [hk]

/-- Witness for C6: three retries with base delay 2, every attempt failing,
sleeps 2·1, 2·2, 2·3 and surfaces the last failure after 4 connect calls. -/
theorem make_conn_retry_policy_witness :
    make_conn (fun _ => ConnAttempt.opError ("no route to host")) 3 2 =
      ⟨.raisedOp ("no route to host"),
       (List.range 3).map (fun k => 2 * ((k + 1 : Nat) : ℚ)), 3 + 1⟩ :=
  (make_conn_retry_policy 3 2).2 (fun _ => ConnAttempt.opError ("no route to host"))
    (fun _ => ("no route to host")) (fun _ => rfl)

/-- C10: only `OperationalError` is retried; an exception of any other class
raised by the first connection attempt escapes `make_conn` at once, with no
sleep and no further attempt, whatever the retry budget. -/
theorem make_conn_other_exception (attempts : Nat → ConnAttempt) (maxRetries : Nat)
    (backoff : ℚ) (m : String) (h : attempts 0 = ConnAttempt.otherError m) :
    make_conn attempts maxRetries backoff = ⟨.raisedOther m, [], 1⟩ := by
  cases maxRetries with
  | zero => simp [make_conn, makeConnAux, h]
  | succ n => simp [make_conn, makeConnAux, h]

/-- Witness for C10: an authentication-style failure on the first attempt
escapes immediately despite a budget of 3 retries. -/
theorem make_conn_other_exception_witness :
    make_conn (fun _ => ConnAttempt.otherError ("password authentication failed")) 3 1 =
      ⟨.raisedOther ("password authentication failed"), [], 1⟩ :=
  make_conn_other_exception _ 3 1 ("password authentication failed") rfl

/-- C7: with a pool holding two distinct members and a non-degenerate amount
range, every generated request draws both accounts from the pool, the two
accounts differ, and the amount is the 2-decimal rounding of a value drawn
from `[lo, hi]`. -/
theorem genRequest_valid (pool : List Int) (a b : Int) (i j : Nat) (u lo hi : ℚ)
    (ha : a ∈ pool) (hb : b ∈ pool) (hab : a ≠ b)
    (hu0 : 0 ≤ u) (hu1 : u ≤ 1) (hlo : lo < hi) :
    (genRequest pool i j u lo hi).from_id ∈ pool ∧
    (genRequest pool i j u lo hi).to_id ∈ pool ∧
    (genRequest pool i j u lo hi).to_id ≠ (genRequest pool i j u lo hi).from_id ∧
    ∃ raw, lo ≤ raw ∧ raw ≤ hi ∧ (genRequest pool i j u lo hi).amt = roundDec 2 raw := by
  have hlen : 0 < pool.length := List.length_pos.2 (by
    rintro rfl
    exact (List.not_mem_nil a) ha)
  have hfmem : pool.getD (i % pool.length) 0 ∈ pool := by
    rw [List.getD_eq_get pool 0 (Nat.mod_lt i hlen)]
    exact List.get_mem _ _ _
  have hrestlen :
      0 < (pool.filter (fun x => x ≠ pool.getD (i % pool.length) 0)).length := by
    rcases eq_or_ne a (pool.getD (i % pool.length) 0) with h | h
    · have hbf : b ≠ pool.getD (i % pool.length) 0 := fun hbeq => hab (h ▸ hbeq ▸ rfl)
      have hbmem : b ∈ pool.filter (fun x => x ≠ pool.getD (i % pool.length) 0) :=
        List.mem_filter.2 ⟨hb, decide_eq_true hbf⟩
      exact List.length_pos.2 (List.ne_nil_of_mem hbmem)
    · have hamem : a ∈ pool.filter (fun x => x ≠ pool.getD (i % pool.length) 0) :=
        List.mem_filter.2 ⟨ha, decide_eq_true h⟩
      exact List.length_pos.2 (List.ne_nil_of_mem hamem)
  have htmem : (pool.filter (fun x => x ≠ pool.getD (i % pool.length) 0)).getD
      (j % (pool.filter (fun x => x ≠ pool.getD (i % pool.length) 0)).length) 0 ∈
      pool.filter (fun x => x ≠ pool.getD (i % pool.length) 0) := by
    rw [List.getD_eq_get _ 0 (Nat.mod_lt j hrestlen)]
    exact List.get_mem _ _ _
  obtain ⟨htpool, htne⟩ := List.mem_filter.1 htmem
  refine ⟨hfmem, htpool, of_decide_eq_true htne, lo + u * (hi - lo), ?_, ?_, rfl⟩
  · have := mul_nonneg hu0 (by linarith : (0 : ℚ) ≤ hi - lo)
    linarith
  · have := mul_le_mul_of_nonneg_right hu1 (by linarith : (0 : ℚ) ≤ hi - lo)
    linarith

/-- Witness for C7: pool `[1, 2]`, unit sample 1/2, range `[1, 2]`. -/
theorem genRequest_valid_witness :
    (genRequest [1, 2] 0 0 (1 / 2) 1 2).from_id ∈ [(1 : Int), 2] ∧
    (genRequest [1, 2] 0 0 (1 / 2) 1 2).to_id ∈ [(1 : Int), 2] ∧
    (genRequest [1, 2] 0 0 (1 / 2) 1 2).to_id ≠ (genRequest [1, 2] 0 0 (1 / 2) 1 2).from_id ∧
    ∃ raw, 1 ≤ raw ∧ raw ≤ 2 ∧ (genRequest [1, 2] 0 0 (1 / 2) 1 2).amt = roundDec 2 raw :=
  genRequest_valid [1, 2] 1 2 0 0 (1 / 2) 1 2 (by decide) (by decide) (by decide)
    (by norm_num) (by norm_num) (by norm_num)

/-- C5: whenever the completion order delivers each submitted future exactly
once (`order` is duplicate-free and covers all `totalRequests` indices), the
collected result list has length exactly `totalRequests` and is a
permutation of the per-request executor results — no result lost, none
duplicated, for any completion order and any per-request outcomes.  The
concurrency limit only schedules the futures and does not appear in the
collection. -/
theorem runBatch_exact_collection (reqs : List TransferRequest)
    (work : TransferRequest → TxResult) (order : List (Fin reqs.length))
    (hnd : order.Nodup) (hlen : order.length = reqs.length) :
    (runBatchResults reqs work order).length = reqs.length ∧
    (runBatchResults reqs work order).Perm (reqs.map work) := by
  have hsub : order ⊆ List.finRange reqs.length := fun x _ => List.mem_finRange x
  have hsp : List.Subperm order (List.finRange reqs.length) :=
    List.subperm_of_subset hnd hsub
  have hperm : order.Perm (List.finRange reqs.length) :=
    hsp.perm_of_length_le (by rw [hlen, List.length_finRange])
  constructor
  · simp [runBatchResults, hlen]
  · have h2 := hperm.map (fun i => work (reqs.get i))
    have h3 : (List.finRange reqs.length).map (fun i => work (reqs.get i)) = reqs.map work := by
      rw [show (fun i => work (reqs.get i)) = work ∘ reqs.get from rfl, ← List.map_map,
        List.finRange_map_get]
    rw [runBatchResults]
    exact h3 ▸ h2

/-- Witness for C5: a two-request batch collected in reverse order yields
two results forming a permutation of the per-request outcomes. -/
theorem runBatch_exact_collection_witness :
    (runBatchResults reqsW workW orderW).length = reqsW.length ∧
    (runBatchResults reqsW workW orderW).Perm (reqsW.map workW) :=
  runBatch_exact_collection reqsW workW orderW (by decide) (by decide)

/-- C1 (code bug): the connection is successfully established, yet when the
`SET LOCAL statement_timeout` statement raises (the connection drops right
after connect), the exception lands in the outer handler before the inner
`try`/`finally` is entered — the invocation returns a `CONN_ERR` result and
`conn.close()` (and `cur.close()`) are never called: the session leaks
instead of being closed exactly once. -/
theorem worker_session_leak_on_timeout_setup :
    (make_conn attemptsOk 3 1).result = ConnOutcome.conn ∧
    (worker_task attemptsOk 3 1 envLeak .twoPl .readCommitted 1 2 5 0).2.connCloses = 0 ∧
    (worker_task attemptsOk 3 1 envLeak .twoPl .readCommitted 1 2 5 0).2.curCloses = 0 ∧
    (worker_task attemptsOk 3 1 envLeak .twoPl .readCommitted 1 2 5 0).1.status =
      ("CONN_ERR: server closed the connection unexpectedly") := by
  decide

/-- A successful inner `try` body implies the mode dispatch succeeded with
the same status string. -/
theorem innerTryBody_ok_innerOp (env : DbBehavior) (mode : Mode) (s : String)
    (h : innerTryBody env mode = Except.ok s) : innerOp env mode = Except.ok s := by
  unfold innerTryBody at h
  cases hio : innerOp env mode with
  | error m => rw [hio] at h; exact absurd h (by simp)
  | ok s2 =>
    rw [hio] at h
    cases hc : env.commit with
    | error m => rw [hc] at h; exact absurd h (by simp)
    | ok u =>
      rw [hc] at h
      exact h

/-- A status delivered by a successful mode dispatch is `COMPLETADA`
(simple mode), `UNKNOWN` (procedure returned no row), or the procedure's
own returned string. -/
theorem innerOp_ok_status (env : DbBehavior) (mode : Mode) (s : String)
    (h : innerOp env mode = Except.ok s) :
    s = ("COMPLETADA") ∨ s = ("UNKNOWN") ∨ procReturn env mode = Except.ok (some s) := by
  cases mode with
  | twoPl =>
    cases hp : env.proc2pl with
    | error m => simp [innerOp, hp] at h
    | ok o =>
      cases o with
      | none =>
        simp only [innerOp, hp, Except.ok.injEq] at h
        exact Or.inr (Or.inl h.symm)
      | some s2 =>
        simp only [innerOp, hp, Except.ok.injEq] at h
        exact Or.inr (Or.inr (by rw [procReturn, hp, h]))
  | ts =>
    cases hp : env.procTs with
    | error m => simp [innerOp, hp] at h
    | ok o =>
      cases o with
      | none =>
        simp only [innerOp, hp, Except.ok.injEq] at h
        exact Or.inr (Or.inl h.symm)
      | some s2 =>
        simp only [innerOp, hp, Except.ok.injEq] at h
        exact Or.inr (Or.inr (by rw [procReturn, hp, h]))
  | opt =>
    cases hp : env.procOpt with
    | error m => simp [innerOp, hp] at h
    | ok o =>
      cases o with
      | none =>
        simp only [innerOp, hp, Except.ok.injEq] at h
        exact Or.inr (Or.inl h.symm)
      | some s2 =>
        simp only [innerOp, hp, Except.ok.injEq] at h
        exact Or.inr (Or.inr (by rw [procReturn, hp, h]))
  | simple =>
    cases hd : env.debit with
    | error m => simp [innerOp, hd] at h
    | ok u =>
      cases hc : env.credit with
      | error m => simp [innerOp, hd, hc] at h
      | ok u2 =>
        cases hil : env.insertLog with
        | error m => simp [innerOp, hd, hc, hil] at h
        | ok u3 =>
          simp only [innerOp, hd, hc, hil, Except.ok.injEq] at h
          exact Or.inl h.symm

/-- C3: the Transaction Executor is a total function of the behaviour of
the connection and session (every exception any step may raise is part of
that behaviour), and each invocation returns a result record of exactly one
of the three shapes — a `CONN_ERR:` record, an `ABORT:` record (each
carrying the sanitized exception message in both `status` and `error`), or
a success record with `error = none` whose status is `COMPLETADA`,
`UNKNOWN`, or the string returned by the mode's stored procedure.  No
failure escapes as an exception; all are surfaced as data. -/
theorem worker_outcome_encoded (attempts : Nat → ConnAttempt) (maxRetries : Nat)
    (backoff : ℚ) (env : DbBehavior) (mode : Mode) (iso : Isolation)
    (fid tid : Int) (amt lat : ℚ) :
    (∃ m, (worker_task attempts maxRetries backoff env mode iso fid tid amt lat).1.status =
          ("CONN_ERR: ").append (sanitize m) ∧
        (worker_task attempts maxRetries backoff env mode iso fid tid amt lat).1.error =
          some (sanitize m)) ∨
    (∃ m, (worker_task attempts maxRetries backoff env mode iso fid tid amt lat).1.status =
          ("ABORT: ").append (sanitize m) ∧
        (worker_task attempts maxRetries backoff env mode iso fid tid amt lat).1.error =
          some (sanitize m)) ∨
    ((worker_task attempts maxRetries backoff env mode iso fid tid amt lat).1.error = none ∧
      ((worker_task attempts maxRetries backoff env mode iso fid tid amt lat).1.status =
          ("COMPLETADA") ∨
        (worker_task attempts maxRetries backoff env mode iso fid tid amt lat).1.status =
          ("UNKNOWN") ∨
        procReturn env mode = Except.ok
          (some ((worker_task attempts maxRetries backoff env mode iso fid tid amt lat).1.status)))) := by
  unfold worker_task
  cases hmc : (make_conn attempts maxRetries backoff).result with
  | raisedOp m => exact Or.inl ⟨m, rfl, rfl⟩
  | raisedOther m => exact Or.inl ⟨m, rfl, rfl⟩
  | conn =>
    cases hcur : env.cursor with
    | error m => exact Or.inl ⟨m, rfl, rfl⟩
    | ok u =>
      cases hst : env.setTimeout with
      | error m => exact Or.inl ⟨m, rfl, rfl⟩
      | ok u2 =>
        cases hbt : env.beginTx with
        | error m => exact Or.inl ⟨m, rfl, rfl⟩
        | ok u3 =>
          unfold afterFinally afterInnerExcept
          cases hit : innerTryBody env mode with
          | ok s =>
            cases hcc : env.closeCur with
            | error m3 => exact Or.inl ⟨m3, rfl, rfl⟩
            | ok u4 =>
              cases hccn : env.closeConn with
              | error m4 => exact Or.inl ⟨m4, rfl, rfl⟩
              | ok u5 =>
                exact Or.inr (Or.inr ⟨rfl,
                  innerOp_ok_status env mode s (innerTryBody_ok_innerOp env mode s hit)⟩)
          | error m =>
            cases hrb : env.rollback with
            | ok u4 =>
              cases hcc : env.closeCur with
              | error m3 => exact Or.inl ⟨m3, rfl, rfl⟩
              | ok u5 =>
                cases hccn : env.closeConn with
                | error m4 => exact Or.inl ⟨m4, rfl, rfl⟩
                | ok u6 => exact Or.inr (Or.inl ⟨m, rfl, rfl⟩)
            | error m2 =>
              cases hcc : env.closeCur with
              | error m3 => exact Or.inl ⟨m3, rfl, rfl⟩
              | ok u5 =>
                cases hccn : env.closeConn with
                | error m4 => exact Or.inl ⟨m4, rfl, rfl⟩
                | ok u6 => exact Or.inl ⟨m2, rfl, rfl⟩

/-- C4 counterexample: an exception while setting the statement timeout
(step 3) produces a result whose status does not contain `ABORT` at all,
and no rollback is ever issued — contradicting the claim that any exception
during steps 3-6 triggers a rollback and an ABORT-classified status. -/
theorem worker_step34_not_aborted :
    strContainsSub
        (worker_task attemptsOk 3 1 envLeak .twoPl .readCommitted 1 2 5 0).1.status
        ("ABORT") = false ∧
    (worker_task attemptsOk 3 1 envLeak .twoPl .readCommitted 1 2 5 0).2.rollbacks = 0 := by
  decide

/-- C4 amended: an exception raised by the mode's operation or by the commit
(steps 5-6) is handled by the inner handler — the transaction is rolled
back exactly once and the status becomes `ABORT: <sanitized message>`
(provided rollback and the closes themselves return).  An exception while
setting the statement timeout or opening the transaction (steps 3-4) is
instead caught by the outer handler: no rollback is attempted and the
status is `CONN_ERR: <sanitized message>`. -/
theorem worker_rollback_policy (attempts : Nat → ConnAttempt) (maxRetries : Nat)
    (backoff : ℚ) (env : DbBehavior) (mode : Mode) (iso : Isolation)
    (fid tid : Int) (amt lat : ℚ)
    (hconn : (make_conn attempts maxRetries backoff).result = ConnOutcome.conn)
    (hcur : env.cursor = Except.ok ()) :
    (∀ m, env.setTimeout = Except.ok () → env.beginTx = Except.ok () →
        env.rollback = Except.ok () → env.closeCur = Except.ok () →
        env.closeConn = Except.ok () → innerTryBody env mode = Except.error m →
        (worker_task attempts maxRetries backoff env mode iso fid tid amt lat).1.status =
          ("ABORT: ").append (sanitize m) ∧
        (worker_task attempts maxRetries backoff env mode iso fid tid amt lat).2.rollbacks = 1) ∧
    (∀ m, env.setTimeout = Except.error m →
        (worker_task attempts maxRetries backoff env mode iso fid tid amt lat).1.status =
          ("CONN_ERR: ").append (sanitize m) ∧
        (worker_task attempts maxRetries backoff env mode iso fid tid amt lat).2.rollbacks = 0) ∧
    (∀ m, env.setTimeout = Except.ok () → env.beginTx = Except.error m →
        (worker_task attempts maxRetries backoff env mode iso fid tid amt lat).1.status =
          ("CONN_ERR: ").append (sanitize m) ∧
        (worker_task attempts maxRetries backoff env mode iso fid tid amt lat).2.rollbacks = 0) := by
  refine ⟨?_, ?_, ?_⟩
  · intro m hst hbt hrb hcc hccn hit
    simp [worker_task, hconn, hcur, hst, hbt, afterFinally, afterInnerExcept, hit, hrb,
      hcc, hccn, normalOut]
  · intro m hst
    simp [worker_task, hconn, hcur, hst, outerExceptOut]
  · intro m hst hbt
    simp [worker_task, hconn, hcur, hst, hbt, outerExceptOut]

/-- Witness for C4 (amended): a deadlock raised by the 2PL procedure leads
to exactly one rollback and an `ABORT:`-prefixed status. -/
theorem worker_rollback_policy_witness :
    (worker_task attemptsOk 3 1 envAbort .twoPl .readCommitted 1 2 5 0).1.status =
      ("ABORT: ").append (sanitize ("deadlock detected")) ∧
    (worker_task attemptsOk 3 1 envAbort .twoPl .readCommitted 1 2 5 0).2.rollbacks = 1 :=
  (worker_rollback_policy attemptsOk 3 1 envAbort .twoPl .readCommitted 1 2 5 0 rfl rfl).1
    ("deadlock detected") rfl rfl rfl rfl rfl rfl

/-- C2 counterexample: a status string actually reachable from the executor
(the authoritative return value of the 2PL procedure) can contain both
classification keywords, so one single result is counted in both buckets:
`completedCount + abortedCount = 2` on a one-element result set, exceeding
`totalRequested`. -/
theorem classification_double_count :
    completedCount [(worker_task attemptsOk 3 1 envDouble .twoPl .readCommitted 1 2 5 0).1] +
        abortedCount [(worker_task attemptsOk 3 1 envDouble .twoPl .readCommitted 1 2 5 0).1]
      = 2 ∧
    [(worker_task attemptsOk 3 1 envDouble .twoPl .readCommitted 1 2 5 0).1].length = 1 ∧
    completedCount [(worker_task attemptsOk 3 1 envUnknown .twoPl .readCommitted 1 2 5 0).1] +
        abortedCount [(worker_task attemptsOk 3 1 envUnknown .twoPl .readCommitted 1 2 5 0).1]
      = 0 ∧
    [(worker_task attemptsOk 3 1 envUnknown .twoPl .readCommitted 1 2 5 0).1].length = 1 := by
  decide

/-- C2 amended: for every result set in which each status classifies into
exactly one of the two buckets (it matches the completed test exactly when
it does not match the aborted test), the bucket counts partition the set:
`completedCount + abortedCount = totalRequests`.  Statuses hitting neither
bucket (such as `UNKNOWN`) or both make the sum fall short of or exceed the
total. -/
theorem classification_partition_sum (rs : List TxResult)
    (h : ∀ r ∈ rs, isCompletedStatus r.status = !(isAbortedStatus r.status)) :
    completedCount rs + abortedCount rs = rs.length := by
  induction rs with
  | nil => rfl
  | cons r rest ih =>
    have hr := h r (List.mem_cons_self r rest)
    have hrest := ih (fun x hx => h x (List.mem_cons_of_mem r hx))
    unfold completedCount abortedCount at hrest ⊢
    cases hc : isCompletedStatus r.status <;> cases ha : isAbortedStatus r.status <;>
      rw [hc, ha] at hr <;> simp only [List.filter_cons, hc, ha, Bool.false_eq_true,
        if_true, if_false, List.length_cons, List.length] <;> first
      | (exact absurd hr (by decide))
      | omega

/-- Witness for C2 (amended): two well-formed statuses, one per bucket. -/
theorem classification_partition_sum_witness :
    completedCount [txr ("COMPLETADA") 1, txr (("ABORT: ").append ("oops")) 1] +
        abortedCount [txr ("COMPLETADA") 1, txr (("ABORT: ").append ("oops")) 1] = 2 :=
  classification_partition_sum
    [txr ("COMPLETADA") 1, txr (("ABORT: ").append ("oops")) 1] (by decide)

/-- Rounding the exact value zero yields zero. -/
theorem rndHalfEven_zero : rndHalfEven 0 = 0 := by
  unfold rndHalfEven
  norm_num

/-- Rounding zero to any number of decimals yields zero. -/
theorem roundDec_zero (d : Nat) : roundDec d 0 = 0 := by
  unfold roundDec
  rw [zero_mul, rndHalfEven_zero]
  norm_num

/-- C8 counterexample: on an empty result set the detail writer's fieldname
computation (`list(results[0].keys())`) raises `IndexError`, the `except`
clause swallows it, and the detail header is not written — contrary to the
claim that both detail and summary rows are written. -/
theorem empty_run_detail_header_missing : detailHeaderWritten [] true = false := rfl

/-- C8 amended: on an empty result set (`totalRequests = 0`) the summary row
is still produced without any division-by-zero — all counts 0, abort rate
0.0, latencies 0.0, throughput 0.0 — but the detail write attempt fails
with an `IndexError` (caught and logged), so the detail header is not
emitted even to an empty file. -/
theorem empty_run_summary_degrades (p : RunParams) (dur now : ℚ) :
    detailHeaderWritten [] true = false ∧
    (summarize p [] dur now).total_ops = 0 ∧
    (summarize p [] dur now).completed = 0 ∧
    (summarize p [] dur now).aborted = 0 ∧
    (summarize p [] dur now).abort_rate_pct = 0 ∧
    (summarize p [] dur now).avg_latency_s = 0 ∧
    (summarize p [] dur now).p50_latency_s = 0 ∧
    (summarize p [] dur now).throughput_ops_per_s = 0 ∧
    (summarize p [] dur now).timestamp = now := by
  refine ⟨rfl, rfl, rfl, rfl, rfl, rfl, rfl, ?_, rfl⟩
  show (if 0 < dur then roundDec 4 ((([] : List TxResult).length : ℚ) / dur) else 0) = 0
  rcases lt_or_le 0 dur with hd | hd
  · rw [if_pos hd]
    norm_num [roundDec_zero]
  · rw [if_neg (not_lt.2 hd)]

/-- C9 counterexample: summarizing the same empty result set with the same
run parameters at two different wall-clock instants yields records that are
not identical — the `timestamp` field differs. -/
theorem summarize_timestamp_differs : summarize p0 [] 1 0 ≠ summarize p0 [] 1 1 := by
  intro h
  have h2 := congrArg RunSummary.timestamp h
  dsimp only [summarize] at h2
  norm_num at h2

/-- C9 amended: re-summarizing the same result set with the same run
parameters and run duration yields identical values in every field except
`timestamp`, which records the moment of summarization.  All derived
statistics (counts, abort rate, latency statistics, throughput) are pure
functions of the inputs. -/
theorem summarize_deterministic_fields (p : RunParams) (rs : List TxResult)
    (dur t1 t2 : ℚ) :
    (summarize p rs dur t1).run_id = (summarize p rs dur t2).run_id ∧
    (summarize p rs dur t1).mode = (summarize p rs dur t2).mode ∧
    (summarize p rs dur t1).isolation = (summarize p rs dur t2).isolation ∧
    (summarize p rs dur t1).concurrency = (summarize p rs dur t2).concurrency ∧
    (summarize p rs dur t1).total_ops = (summarize p rs dur t2).total_ops ∧
    (summarize p rs dur t1).completed = (summarize p rs dur t2).completed ∧
    (summarize p rs dur t1).aborted = (summarize p rs dur t2).aborted ∧
    (summarize p rs dur t1).abort_rate_pct = (summarize p rs dur t2).abort_rate_pct ∧
    (summarize p rs dur t1).avg_latency_s = (summarize p rs dur t2).avg_latency_s ∧
    (summarize p rs dur t1).p50_latency_s = (summarize p rs dur t2).p50_latency_s ∧
    (summarize p rs dur t1).throughput_ops_per_s = (summarize p rs dur t2).throughput_ops_per_s :=
  ⟨rfl, rfl, rfl, rfl, rfl, rfl, rfl, rfl, rfl, rfl, rfl⟩

end ConcurrentLoadTest
